import Mathlib

/-!
Shallow embedding of the facial-redaction pipeline from
`src/index.js` of the webviewer-facial-redaction-sample repository.

Coordinates are modelled as rationals (`ℚ`): the JavaScript source only
multiplies and divides finite coordinate values, and all the concrete
inputs appearing in the specification are exactly representable.
External collaborators (the PDF SDK's document/annotation services and the
face-api.js detector) are modelled as an explicit environment; the
annotation store is explicit state threaded through the functions.
-/

namespace FacialRedaction

/-- A bounding box `{x, y, width, height}` as carried by a face-api.js
detection (`detection.box`), in raster-space or document-space. -/
structure Box where
  x : ℚ
  y : ℚ
  width : ℚ
  height : ℚ
deriving Repr, DecidableEq

/-- A face detection: a bounding box plus a confidence score, as produced by
`faceapi.detectAllFaces`. -/
structure FaceDetection where
  box : Box
  confidence : ℚ
deriving Repr, DecidableEq

/-- A quadrilateral `Annotations.Quad(x1, y1, x2, y2, x3, y3, x4, y4)`:
four points in the positional order of the constructor arguments. -/
structure Quad where
  p1 : ℚ × ℚ
  p2 : ℚ × ℚ
  p3 : ℚ × ℚ
  p4 : ℚ × ℚ
deriving Repr, DecidableEq

/-- `Annotations.Color(r, g, b, a)` of the viewer SDK. -/
structure Color where
  r : ℕ
  g : ℕ
  b : ℕ
  a : ℚ
deriving Repr, DecidableEq

/-- A `RedactionAnnotation` as configured by `createFaceRedactionAnnotation`:
its quads, author, target page and stroke color. -/
structure RedactionAnnotation where
  Quads : List Quad
  Author : String
  PageNumber : ℕ
  StrokeColor : Color
deriving Repr, DecidableEq

/-- The externally owned annotation manager, reduced to the parts the
pipeline touches: the current user and the annotation store, plus the list
of annotations for which a redraw was requested. -/
structure AnnotationManagerState where
  currentUser : String
  annotations : List RedactionAnnotation
  redrawn : List RedactionAnnotation
deriving Repr, DecidableEq

/-- A page's metadata `doc.getPageInfo(pageNumber)`: width and height in
document units. -/
structure PageInfo where
  width : ℚ
  height : ℚ
deriving Repr, DecidableEq

/-- A canvas produced by `doc.loadCanvas` for one page: its pixel dimensions
are all the pipeline depends on downstream. -/
structure Canvas where
  width : ℚ
  height : ℚ
deriving Repr, DecidableEq

/-- Error taxonomy of the specification: a page that cannot be rasterized, a
detector invoked before its model has loaded, and an opaque detection
failure. -/
inductive Err where
  | RenderFailure
  | ModelNotReady
  | DetectionFailure
deriving Repr, DecidableEq

/-- Options passed to `faceapi.detectAllFaces` via
`new faceapi.SsdMobilenetv1Options({minConfidence, maxResults})`. -/
structure SsdMobilenetv1Options where
  minConfidence : ℚ
  maxResults : ℕ
deriving Repr, DecidableEq

/-- Modelled from the spec: `faceapi.detectAllFaces` is external (face-api.js
is not part of this repository's sources). Per the spec, the minimum
confidence threshold "filters low-confidence boxes before they reach the
caller" and the maximum result cap bounds the number of results: given the
raw scored boxes the network produces for an image, the call returns those
whose confidence is not below `minConfidence`, capped at `maxResults`. -/
def detectAllFaces (raw : List FaceDetection)
    (options : SsdMobilenetv1Options) : List FaceDetection :=
  (raw.filter (fun d => options.minConfidence ≤ d.confidence)).take
    options.maxResults

/-- Modelled from the spec: `faceapi.resizeResults` is external (face-api.js
is not part of this repository's sources). It rescales each detection's box
from the dimensions of the image the detection was run on (`imageDims`) to
the given display size, multiplying x/width by the horizontal ratio and
y/height by the vertical ratio; confidence is unchanged. -/
def resizeResults (imageDims : ℚ × ℚ) (displaySize : ℚ × ℚ)
    (detections : List FaceDetection) : List FaceDetection :=
  let sx := displaySize.1 / imageDims.1
  let sy := displaySize.2 / imageDims.2
  detections.map (fun d =>
    { d with
        box :=
          { x := d.box.x * sx
            y := d.box.y * sy
            width := d.box.width * sx
            height := d.box.height * sy } })

/-- Quad built for one detection box in `createFaceRedactionAnnotation`:
`new Annotations.Quad(...bottomLeft, ...bottomRight, ...topRight, ...topLeft)`
with `topLeft = [x, y]`, `topRight = [x + width, y]`,
`bottomLeft = [x, y + height]`, `bottomRight = [x + width, y + height]`. -/
def quadOfBox (b : Box) : Quad :=
  { p1 := (b.x, b.y + b.height)
    p2 := (b.x + b.width, b.y + b.height)
    p3 := (b.x + b.width, b.y)
    p4 := (b.x, b.y) }

/-- `createFaceRedactionAnnotation(webViewerInstance, pageNumber, faceDetections)`.
The `faceDetections` argument is `Option`-typed: `none` models a null or
undefined argument, short-circuited by the JavaScript guard
`if (faceDetections && faceDetections.length > 0)`. When the guard holds,
one `RedactionAnnotation` aggregating one quad per detection is created,
stamped with the current user and the page number, added to the store
(`addAnnotation`) and redrawn (`redrawAnnotation`). -/
def createFaceRedactionAnnotation (pageNumber : ℕ)
    (faceDetections : Option (List FaceDetection))
    (s : AnnotationManagerState) : AnnotationManagerState :=
  match faceDetections with
  | none => s
  | some ds =>
    if ds.length > 0 then
      let quads := ds.map (fun d => quadOfBox d.box)
      let faceAnnotation : RedactionAnnotation :=
        { Quads := quads
          Author := s.currentUser
          PageNumber := pageNumber
          StrokeColor := { r := 255, g := 0, b := 0, a := 1 } }
      { s with
          annotations := s.annotations ++ [ faceAnnotation]
          redrawn := s.redrawn ++ [ faceAnnotation] }
    else s

/-- The external collaborators of one sweep, fixed for its duration: the
document service (page count and per-page info), the rasterizer
(`doc.loadCanvas`, which either yields a canvas for a page at a zoom factor
or fails), and the detection network (the raw scored boxes it produces for a
page's raster, or a failure such as `ModelNotReady`). -/
structure Env where
  pageCount : ℕ
  getPageInfo : ℕ → PageInfo
  loadCanvas : ℕ → ℚ → Except Err Canvas
  runModel : ℕ → Except Err (List FaceDetection)

/-- The zoom factor hard-coded in `doc.loadCanvas({pageNumber, zoom: 0.5, ...})`. -/
def pageZoom : ℚ := 1 / 2

/-- The detection options hard-coded in `detectAndRedactFacesFromPage`:
`new faceapi.SsdMobilenetv1Options({minConfidence: 0.40, maxResults: 300})`. -/
def detectionOptions : SsdMobilenetv1Options :=
  { minConfidence := 40 / 100, maxResults := 300 }

/-- The detection phase of `detectAndRedactFacesFromPage`: read the page info
(`displaySize`), rasterize the page at zoom 0.5, run `detectAllFaces` with
the hard-coded options, and resize the detections back to the original page
size with `resizeResults(detections, displaySize)`. Returns the sequence
handed to `createFaceRedactionAnnotation`. -/
def detectionsForPage (env : Env) (pageNumber : ℕ) :
    Except Err (List FaceDetection) :=
  let pageInfo := env.getPageInfo pageNumber
  let displaySize : ℚ × ℚ := (pageInfo.width, pageInfo.height)
  match env.loadCanvas pageNumber pageZoom with
  | .error e => .error e
  | .ok canvas =>
    match env.runModel pageNumber with
    | .error e => .error e
    | .ok raw =>
      let detections := detectAllFaces raw detectionOptions
      .ok (resizeResults (canvas.width, canvas.height) displaySize detections)

/-- `detectAndRedactFacesFromPage(webViewerInstance, pageNumber)`: run the
detection phase for the page and commit the resulting detections through
`createFaceRedactionAnnotation`, then `resolve()`. The returned promise can
never reject: the executor's `reject` parameter is declared but never
called, `doc.loadCanvas` is registered with only a `drawComplete` callback
(a rasterization failure fires no callback at all), and a failure of the
detect call rejects the inner `convertCanvasToImage(...).then(async ...)`
chain, which has no handler. So on any stage failure the promise simply
never settles — modelled as `none` — and the annotation state is untouched;
no error value is ever delivered to the caller. -/
def detectAndRedactFacesFromPage (env : Env) (pageNumber : ℕ)
    (s : AnnotationManagerState) : Option AnnotationManagerState :=
  match detectionsForPage env pageNumber with
  | .error _ => none
  | .ok resizedDetections =>
    some ( createFaceRedactionAnnotation pageNumber (some resizedDetections) s)

/-- Caller-visible events of the page sweep in `onRedactFacesButtonClick`:
the progress indicator being shown/hidden, the per-page progress
notification `sendPageProcessing()`, and the completion of one page's
detect-and-annotate cycle. -/
inductive Ev where
  | showProgress
  | sendPageProcessing
  | pageProcessed (pageNumber : ℕ)
  | hideProgress
deriving Repr, DecidableEq

/-- The `for` loop of `onRedactFacesButtonClick`, started at `pageNumber`
with `remaining` iterations left: fire `sendPageProcessing()`, then await
`detectAndRedactFacesFromPage`. If the page's promise settles the loop
advances to the next page; if it never settles the `await` suspends
forever — the loop never resumes, no later page is touched, and no error
is observed. Returns the event trace, the annotation state as left by the
pages that completed, and whether the loop ran to completion (`true`) or
is stalled on an await that will never resume (`false`). -/
def sweepFrom (env : Env) :
    ℕ → ℕ → AnnotationManagerState →
      List Ev × AnnotationManagerState × Bool
  | _, 0, s => ([], s, true)
  | pageNumber, remaining + 1, s =>
    match detectAndRedactFacesFromPage env pageNumber s with
    | none => ([Ev.sendPageProcessing], s, false)
    | some s' =>
      let rest := sweepFrom env (pageNumber + 1) remaining s'
      (Ev.sendPageProcessing :: Ev.pageProcessed pageNumber :: rest.1,
        rest.2.1, rest.2.2)

/-- `onRedactFacesButtonClick()`: show the progress indicator, sweep pages
`1` through `getPageCount()` sequentially, and hide the indicator — the
latter only when every page's promise settled. The handler has no
`try`/`catch` and never observes a stage failure: when the sweep stalls,
`hideProgress()` is simply never reached and nothing is reported. The
final component records whether the handler's body ran to completion. -/
def onRedactFacesButtonClick (env : Env) (s : AnnotationManagerState) :
    List Ev × AnnotationManagerState × Bool :=
  match sweepFrom env 1 env.pageCount s with
  | (tr, s', true) => (Ev.showProgress :: tr ++ [Ev.hideProgress], s', true)
  | (tr, s', false) => (Ev.showProgress :: tr, s', false)

/-- Rescaling of a box by a zoom factor as the specification words it:
"dividing each of x, y, width, and height by the zoom factor". Stated from
the spec for comparison against the pipeline's `resizeResults` path. -/
def divBoxByZoom (zoom : ℚ) (b : Box) : Box :=
  { x := b.x / zoom
    y := b.y / zoom
    width := b.width / zoom
    height := b.height / zoom }

/-- Fieldwise scaling of a box by a factor, used to state the round-trip
invariant relating a resized box back to the original. -/
def mulBoxByZoom (zoom : ℚ) (b : Box) : Box :=
  { x := b.x * zoom
    y := b.y * zoom
    width := b.width * zoom
    height := b.height * zoom }

/-- A concrete two-page environment used to evaluate the pipeline on
explicit inputs: 100×200 pages, page 1 rasterizes at the requested zoom and
its raster contains one face, page 2 fails to rasterize. -/
def sampleEnv : Env :=
  { pageCount := 2
    getPageInfo := fun _ => { width := 100, height := 200 }
    loadCanvas := fun pageNumber zoom =>
      if pageNumber = 2 then .error .RenderFailure
      else .ok { width := zoom * 100, height := zoom * 200 }
    runModel := fun _ => .ok [⟨⟨10, 20, 30, 40⟩, 9 / 10⟩] }

/-- The event trace of a fully successful sweep starting at `pageNumber`
with `remaining` pages left: for each page in order, the progress
notification immediately followed by that page's completed processing. -/
def expectedTrace : ℕ → ℕ → List Ev
  | _, 0 => []
  | pageNumber, remaining + 1 =>
    Ev.sendPageProcessing :: Ev.pageProcessed pageNumber ::
      expectedTrace (pageNumber + 1) remaining

/-- A concrete three-page environment: pages are 100×200, every page's
raster holds one face, and page 2 fails to rasterize. -/
def sampleEnv3 : Env :=
  { pageCount := 3
    getPageInfo := fun _ => { width := 100, height := 200 }
    loadCanvas := fun pageNumber zoom =>
      if pageNumber = 2 then .error .RenderFailure
      else .ok { width := zoom * 100, height := zoom * 200 }
    runModel := fun _ => .ok [⟨⟨10, 20, 30, 40⟩, 9 / 10⟩] }

/-- A concrete one-page environment: a 100×200 page whose raster holds one
face; every stage succeeds. -/
def sampleEnv1 : Env :=
  { pageCount := 1
    getPageInfo := fun _ => { width := 100, height := 200 }
    loadCanvas := fun _ zoom =>
      .ok { width := zoom * 100, height := zoom * 200 }
    runModel := fun _ => .ok [⟨⟨10, 20, 30, 40⟩, 9 / 10⟩] }

/-- Events of the script's startup and first sweep, for the model-loading
order: `faceapi.nets.ssdMobilenetv1.loadFromUri` being invoked, its promise
resolving, the WebViewer `then` callback registering the button, the button
being clicked, and a detect call made on some page during the sweep. -/
inductive StartupEv where
  | modelLoadStart
  | modelLoadComplete
  | viewerReady
  | click
  | detect (pageNumber : ℕ)
deriving Repr, DecidableEq

/-- Scheduler state for the startup model: which of the asynchronous
milestones have happened. -/
structure StartupState where
  loadStarted : Bool
  loadCompleted : Bool
  ready : Bool
  clicked : Bool
deriving Repr, DecidableEq

/-- One step of the startup model, encoding exactly the ordering the source
enforces: `loadFromUri` runs first and only once; its promise can resolve at
any later time because the script discards it (`loadFromUri('/models');`
with no `await` and no `then`); the viewer becomes ready after startup; the
button can be clicked once the viewer is ready; and a detect call needs
only the click — the sweep does not wait for the model load to complete. -/
def startupStep (st : StartupState) : StartupEv → Option StartupState
  | .modelLoadStart =>
    if st.loadStarted then none else some { st with loadStarted := true }
  | .modelLoadComplete =>
    if st.loadStarted && !st.loadCompleted then
      some { st with loadCompleted := true }
    else none
  | .viewerReady =>
    if st.loadStarted && !st.ready then some { st with ready := true }
    else none
  | .click => if st.ready then some { st with clicked := true } else none
  | .detect _ => if st.clicked then some st else none

/-- Run the startup model over a trace of events, failing when an event is
not enabled. -/
def runStartup (st : StartupState) : List StartupEv → Option StartupState
  | [] => some st
  | e :: rest =>
    match startupStep st e with
    | none => none
    | some st' => runStartup st' rest

/-- The state before the script runs: nothing has happened yet. -/
def initialStartupState : StartupState :=
  { loadStarted := false, loadCompleted := false, ready := false
    clicked := false }

/-- A trace of events the script can actually exhibit. -/
@[reducible]
def validStartupTrace (t : List StartupEv) : Prop :=
  (runStartup initialStartupState t).isSome = true

/-- Invariant of reachable startup states: a click implies the viewer was
ready, and a ready viewer implies the model load was started. -/
def startupInv (st : StartupState) : Prop :=
  (st.clicked = true → st.ready = true) ∧
  (st.ready = true → st.loadStarted = true)

/-- C1: for every non-empty detection sequence of length `k` on one page,
`createFaceRedactionAnnotation` appends exactly one redaction marker to the
store, the marker contains exactly `k` quadrilaterals, and the quad of each
detection box lists its points in the order bottom-left `(x, y+height)`,
bottom-right `(x+width, y+height)`, top-right `(x+width, y)`,
top-left `(x, y)`. -/
theorem annotation_builder_one_marker_k_quads (pageNumber : ℕ)
    (ds : List FaceDetection) (s : AnnotationManagerState)
    (hne : 0 < ds.length) :
    ( createFaceRedactionAnnotation pageNumber (some ds) s).annotations =
      s.annotations ++
        [{ Quads := ds.map (fun d => quadOfBox d.box)
           Author := s.currentUser
           PageNumber := pageNumber
           StrokeColor := { r := 255, g := 0, b := 0, a := 1 } }] ∧
    (ds.map (fun d => quadOfBox d.box)).length = ds.length ∧
    ∀ d ∈ ds, quadOfBox d.box =
      { p1 := (d.box.x, d.box.y + d.box.height)
        p2 := (d.box.x + d.box.width, d.box.y + d.box.height)
        p3 := (d.box.x + d.box.width, d.box.y)
        p4 := (d.box.x, d.box.y) } := by
  refine ⟨?_, List.length_map _ _, fun d _ => rfl⟩
  simp [ createFaceRedactionAnnotation, hne]

/-- Witness for C1 at a concrete one-detection input. -/
theorem annotation_builder_one_marker_k_quads_witness :
    0 < ([⟨⟨1, 2, 3, 4⟩, 1⟩] : List FaceDetection).length ∧
    ( createFaceRedactionAnnotation 1 (some [⟨⟨1, 2, 3, 4⟩, 1⟩])
        ⟨"u", [], []⟩).annotations =
      [] ++
        [{ Quads := [⟨(1, 6), (4, 6), (4, 2), (1, 2)⟩]
           Author := "u"
           PageNumber := 1
           StrokeColor := ⟨255, 0, 0, 1⟩ }] := by
  refine ⟨by decide, ?_⟩
  have h := annotation_builder_one_marker_k_quads 1 [⟨⟨1, 2, 3, 4⟩, 1⟩]
    ⟨"u", [], []⟩ (by decide)
  rw [h.1]
  norm_num [quadOfBox]

/-- C2: a page whose detection sequence is empty produces no marker and no
redraw request: `createFaceRedactionAnnotation` leaves the annotation
manager state unchanged. -/
theorem annotation_builder_empty_noop (pageNumber : ℕ)
    (s : AnnotationManagerState) :
    createFaceRedactionAnnotation pageNumber (some []) s = s := by
  simp [ createFaceRedactionAnnotation]

/-- C10: a null/undefined detections argument (modelled as `none`) is guarded
at the interface: `createFaceRedactionAnnotation` performs no action and
behaves identically to the empty-sequence no-op. -/
theorem annotation_builder_null_guard (pageNumber : ℕ)
    (s : AnnotationManagerState) :
    createFaceRedactionAnnotation pageNumber none s = s ∧
    createFaceRedactionAnnotation pageNumber none s =
      createFaceRedactionAnnotation pageNumber (some []) s := by
  constructor
  · rfl
  · simp [ createFaceRedactionAnnotation]

/-- C3: when the rasterizer renders the page at the hard-coded zoom (so the
canvas dimensions are the page dimensions scaled by the zoom factor), the
sequence of resized detections the pipeline produces is the detection
sequence with each box field divided by the zoom factor; in particular the
box `{x:10, y:20, width:30, height:40}` at zoom `0.5` resizes to
`{x:20, y:40, width:60, height:80}`. -/
theorem pipeline_divides_boxes_by_zoom (env : Env) (pageNumber : ℕ)
    (raw : List FaceDetection) (w h : ℚ)
    (hinfo : env.getPageInfo pageNumber = ⟨w, h⟩)
    (hcanvas : env.loadCanvas pageNumber pageZoom =
      .ok ⟨pageZoom * w, pageZoom * h⟩)
    (hmodel : env.runModel pageNumber = .ok raw)
    (hw : w ≠ 0) (hh : h ≠ 0) :
    detectionsForPage env pageNumber =
      .ok ((detectAllFaces raw detectionOptions).map
        (fun d => { d with box := divBoxByZoom pageZoom d.box })) ∧
    resizeResults (pageZoom * 100, pageZoom * 200) (100, 200)
        [⟨⟨10, 20, 30, 40⟩, 9 / 10⟩] = [⟨⟨20, 40, 60, 80⟩, 9 / 10⟩] := by
  constructor
  · simp only [detectionsForPage, hinfo, hcanvas, hmodel]
    congr 1
    unfold resizeResults
    apply List.map_congr_left
    intro d _
    congr 1
    unfold divBoxByZoom pageZoom
    congr 1 <;> field_simp
  · unfold resizeResults pageZoom
    norm_num

/-- Witness for C3 on the concrete environment: page 1 is 100×200, its
raster holds one raw detection with box `{10, 20, 30, 40}`, and the pipeline
resizes it to `{20, 40, 60, 80}`. -/
theorem pipeline_divides_boxes_by_zoom_witness :
    sampleEnv.getPageInfo 1 = ⟨100, 200⟩ ∧
    sampleEnv.loadCanvas 1 pageZoom = .ok ⟨pageZoom * 100, pageZoom * 200⟩ ∧
    sampleEnv.runModel 1 = .ok [⟨⟨10, 20, 30, 40⟩, 9 / 10⟩] ∧
    detectionsForPage sampleEnv 1 =
      .ok ((detectAllFaces [⟨⟨10, 20, 30, 40⟩, 9 / 10⟩] detectionOptions).map
        (fun d => { d with box := divBoxByZoom pageZoom d.box })) := by
  refine ⟨rfl, rfl, rfl, ?_⟩
  exact (pipeline_divides_boxes_by_zoom sampleEnv 1
    [⟨⟨10, 20, 30, 40⟩, 9 / 10⟩] 100 200 rfl rfl rfl
    (by norm_num) (by norm_num)).1

/-- C7: round-trip law of the rescaling operation (dividing each box field
by a factor): for every zoom factor `z` in `(0, 1]` and every box `b`,
rescaling `b` by `1/z` and then rescaling the result by `z` returns `b`
exactly (the rational-arithmetic model is exact, so no tolerance is
needed). -/
theorem rescale_round_trip (z : ℚ) (b : Box) (hz0 : 0 < z) (hz1 : z ≤ 1) :
    divBoxByZoom z (divBoxByZoom (1 / z) b) = b := by
  have hz : z ≠ 0 := ne_of_gt hz0
  unfold divBoxByZoom
  field_simp

/-- Witness for C7 at zoom `1/2` and box `{1, 2, 3, 4}`. -/
theorem rescale_round_trip_witness :
    0 < (1 / 2 : ℚ) ∧ (1 / 2 : ℚ) ≤ 1 ∧
    divBoxByZoom (1 / 2) (divBoxByZoom (1 / (1 / 2)) ⟨1, 2, 3, 4⟩) =
      ⟨1, 2, 3, 4⟩ :=
  ⟨by norm_num, by norm_num,
    rescale_round_trip (1 / 2) ⟨1, 2, 3, 4⟩ (by norm_num) (by norm_num)⟩

/-- C8 counterexample: the claimed invariant `resized.box / zoomFactor ==
original.box` fails on the concrete pipeline output. On a 100×200 page the
raster box `{10, 20, 30, 40}` resizes to `{20, 40, 60, 80}`, and dividing
that resized box by the zoom factor `0.5` gives `{40, 80, 120, 160}`, not
the original `{10, 20, 30, 40}`. -/
theorem resized_div_zoom_ne_original :
    resizeResults (pageZoom * 100, pageZoom * 200) (100, 200)
        [⟨⟨10, 20, 30, 40⟩, 9 / 10⟩] = [⟨⟨20, 40, 60, 80⟩, 9 / 10⟩] ∧
    divBoxByZoom pageZoom ⟨20, 40, 60, 80⟩ = ⟨40, 80, 120, 160⟩ ∧
    ¬ divBoxByZoom pageZoom ⟨20, 40, 60, 80⟩ = ⟨10, 20, 30, 40⟩ := by
  refine ⟨?_, ?_, ?_⟩
  · unfold resizeResults pageZoom; norm_num
  · unfold divBoxByZoom pageZoom; norm_num
  · unfold divBoxByZoom pageZoom; intro hcontra
    have := congrArg Box.x hcontra
    norm_num at this

/-- C8 (amended): multiplying each field of a resized box by the zoom factor
recovers the original raster-space box: for every page size and detection
sequence, mapping `mulBoxByZoom pageZoom` over the pipeline's resized boxes
returns the original boxes exactly. -/
theorem resized_mul_zoom_eq_original (w h : ℚ) (ds : List FaceDetection)
    (hw : w ≠ 0) (hh : h ≠ 0) :
    (resizeResults (pageZoom * w, pageZoom * h) (w, h) ds).map
        (fun d => mulBoxByZoom pageZoom d.box) =
      ds.map (fun d => d.box) := by
  unfold resizeResults
  rw [List.map_map]
  apply List.map_congr_left
  intro d _
  simp only [Function.comp]
  unfold mulBoxByZoom pageZoom
  show Box.mk _ _ _ _ =
    Box.mk d.box.x d.box.y d.box.width d.box.height
  congr 1 <;> field_simp

/-- Witness for C8's amended statement at a concrete page size and box. -/
theorem resized_mul_zoom_eq_original_witness :
    (100 : ℚ) ≠ 0 ∧ (200 : ℚ) ≠ 0 ∧
    (resizeResults (pageZoom * 100, pageZoom * 200) (100, 200)
        [⟨⟨10, 20, 30, 40⟩, 9 / 10⟩]).map
        (fun d => mulBoxByZoom pageZoom d.box) =
      ([⟨⟨10, 20, 30, 40⟩, 9 / 10⟩] : List FaceDetection).map
        (fun d => d.box) :=
  ⟨by norm_num, by norm_num,
    resized_mul_zoom_eq_original 100 200 [⟨⟨10, 20, 30, 40⟩, 9 / 10⟩]
      (by norm_num) (by norm_num)⟩

/-- C9: the pipeline invokes the detector with the hard-coded options
`minConfidence = 0.40` and `maxResults = 300`, and every detection in the
sequence handed to the Annotation Builder has confidence not below the
configured minimum (low-confidence detections are excluded). -/
theorem detect_options_and_confidence_filter (env : Env) (pageNumber : ℕ)
    (resized : List FaceDetection)
    (hok : detectionsForPage env pageNumber = .ok resized) :
    detectionOptions.minConfidence = 40 / 100 ∧
    detectionOptions.maxResults = 300 ∧
    ∀ d ∈ resized, ¬ d.confidence < detectionOptions.minConfidence := by
  refine ⟨rfl, rfl, ?_⟩
  intro d hd
  unfold detectionsForPage at hok
  cases hcanvas : env.loadCanvas pageNumber pageZoom with
  | error e => rw [hcanvas] at hok; exact absurd hok (by simp)
  | ok canvas =>
    rw [hcanvas] at hok
    cases hmodel : env.runModel pageNumber with
    | error e => rw [hmodel] at hok; exact absurd hok (by simp)
    | ok raw =>
      rw [hmodel] at hok
      simp only [Except.ok.injEq] at hok
      subst hok
      unfold resizeResults at hd
      simp only [List.mem_map] at hd
      obtain ⟨d₀, hd₀, rfl⟩ := hd
      unfold detectAllFaces at hd₀
      have hmem := List.take_subset _ _ hd₀
      have := (List.mem_filter.mp hmem).2
      simp only [decide_eq_true_eq] at this
      simpa using this

/-- Witness for C9 on the concrete environment: page 1 yields a resized
detection sequence and every element's confidence is at least `0.40`. -/
theorem detect_options_and_confidence_filter_witness :
    detectionsForPage sampleEnv 1 =
      .ok [⟨⟨20, 40, 60, 80⟩, 9 / 10⟩] ∧
    (detectionOptions.minConfidence = 40 / 100 ∧
     detectionOptions.maxResults = 300 ∧
     ∀ d ∈ [(⟨⟨20, 40, 60, 80⟩, 9 / 10⟩ : FaceDetection)],
       ¬ d.confidence < detectionOptions.minConfidence) := by
  have hok : detectionsForPage sampleEnv 1 =
      .ok [⟨⟨20, 40, 60, 80⟩, 9 / 10⟩] := by
    unfold detectionsForPage sampleEnv detectAllFaces detectionOptions
      resizeResults pageZoom
    norm_num
  exact ⟨hok, detect_options_and_confidence_filter sampleEnv 1 _ hok⟩

/-- Helper: a sweep whose loop ran to completion produces the canonical
sequential trace. -/
theorem sweepFrom_completed_trace (env : Env) :
    ∀ (remaining pageNumber : ℕ) (s : AnnotationManagerState),
      (sweepFrom env pageNumber remaining s).2.2 = true →
      (sweepFrom env pageNumber remaining s).1 =
        expectedTrace pageNumber remaining := by
  intro remaining
  induction remaining with
  | zero => intro p s _; rfl
  | succ r ih =>
    intro p s hdone
    unfold sweepFrom at hdone ⊢
    cases hd : detectAndRedactFacesFromPage env p s with
    | none => rw [hd] at hdone; simp at hdone
    | some s' =>
      rw [hd] at hdone
      dsimp only at hdone ⊢
      rw [ih (p + 1) s' hdone]
      rfl

/-- Helper: the canonical sequential trace fires the progress notification
exactly once per page. -/
theorem expectedTrace_count_send :
    ∀ (remaining pageNumber : ℕ),
      (expectedTrace pageNumber remaining).count Ev.sendPageProcessing =
        remaining := by
  intro remaining
  induction remaining with
  | zero => intro p; rfl
  | succ r ih =>
    intro p
    unfold expectedTrace
    simp [List.count_cons, ih (p + 1)]

/-- C6: when every page succeeds, the button handler's caller-visible trace
is: show the progress indicator, then for pages 1 through pageCount in
order the progress notification immediately followed by that page's
completed processing, then hide the indicator; in particular the
notification fires exactly pageCount times, once immediately before each
page begins. -/
theorem sweep_sequential_progress_per_page (env : Env)
    (s : AnnotationManagerState)
    (hok : (onRedactFacesButtonClick env s).2.2 = true) :
    (onRedactFacesButtonClick env s).1 =
      Ev.showProgress :: expectedTrace 1 env.pageCount ++
        [Ev.hideProgress] ∧
    (onRedactFacesButtonClick env s).1.count Ev.sendPageProcessing =
      env.pageCount := by
  unfold onRedactFacesButtonClick at hok ⊢
  cases hsw : sweepFrom env 1 env.pageCount s with
  | mk tr rest =>
    cases rest with
    | mk s' done =>
      cases done with
      | false => rw [hsw] at hok; simp at hok
      | true =>
        dsimp only
        have htr : tr = expectedTrace 1 env.pageCount := by
          have := sweepFrom_completed_trace env env.pageCount 1 s
          rw [hsw] at this
          exact this rfl
        subst htr
        refine ⟨rfl, ?_⟩
        simp [List.count_cons, List.count_append,
          expectedTrace_count_send env.pageCount 1]

/-- Witness for C6 on the concrete one-page environment. -/
theorem sweep_sequential_progress_per_page_witness :
    (onRedactFacesButtonClick sampleEnv1 ⟨"u", [], []⟩).2.2 = true ∧
    (onRedactFacesButtonClick sampleEnv1 ⟨"u", [], []⟩).1 =
      Ev.showProgress :: expectedTrace 1 1 ++ [Ev.hideProgress] ∧
    (onRedactFacesButtonClick sampleEnv1
        ⟨"u", [], []⟩).1.count Ev.sendPageProcessing = 1 := by
  have h1 : detectAndRedactFacesFromPage sampleEnv1 1 ⟨"u", [], []⟩ =
      some ⟨"u",
        [{ Quads := [⟨(20, 120), (80, 120), (80, 40), (20, 40)⟩]
           Author := "u", PageNumber := 1
           StrokeColor := ⟨255, 0, 0, 1⟩ }],
        [{ Quads := [⟨(20, 120), (80, 120), (80, 40), (20, 40)⟩]
           Author := "u", PageNumber := 1
           StrokeColor := ⟨255, 0, 0, 1⟩ }]⟩ := by
    unfold detectAndRedactFacesFromPage detectionsForPage sampleEnv1
    norm_num [detectAllFaces, detectionOptions, resizeResults, pageZoom,
      createFaceRedactionAnnotation, quadOfBox]
  have hsw : sweepFrom sampleEnv1 1 1 ⟨"u", [], []⟩ =
      ([Ev.sendPageProcessing, Ev.pageProcessed 1],
        ⟨"u",
          [{ Quads := [⟨(20, 120), (80, 120), (80, 40), (20, 40)⟩]
             Author := "u", PageNumber := 1
             StrokeColor := ⟨255, 0, 0, 1⟩ }],
          [{ Quads := [⟨(20, 120), (80, 120), (80, 40), (20, 40)⟩]
             Author := "u", PageNumber := 1
             StrokeColor := ⟨255, 0, 0, 1⟩ }]⟩, true) := by
    have e1 : sweepFrom sampleEnv1 1 1 ⟨"u", [], []⟩ =
        match detectAndRedactFacesFromPage sampleEnv1 1 ⟨"u", [], []⟩ with
        | none => ([Ev.sendPageProcessing], ⟨"u", [], []⟩, false)
        | some s' =>
          let rest := sweepFrom sampleEnv1 2 0 s'
          (Ev.sendPageProcessing :: Ev.pageProcessed 1 :: rest.1,
            rest.2.1, rest.2.2) := rfl
    rw [e1, h1]
    rfl
  have hok : (onRedactFacesButtonClick sampleEnv1 ⟨"u", [], []⟩).2.2 =
      true := by
    unfold onRedactFacesButtonClick
    rw [show sampleEnv1.pageCount = 1 from rfl, hsw]
  have h := sweep_sequential_progress_per_page sampleEnv1 ⟨"u", [], []⟩ hok
  exact ⟨hok, h.1, h.2⟩

/-- C4: evaluation of the code at the claim's failing input. In a 3-page
document where page 1 succeeds and page 2's rasterization fails, page 2's
promise never settles (`detectAndRedactFacesFromPage` yields `none`: the
executor's `reject` is declared but never called and `loadCanvas` registers
no error callback), so the handler's await hangs: the trace shows page 1
processed and the progress notification for page 2 but nothing later (no
retry, page 3 never reached, `hideProgress` never fired), the final
annotation state is exactly the state page 1 committed — and the handler
completes with no error of any kind: contrary to the claim, no
RenderFailure is ever reported to the invoking UI action. -/
theorem failure_stalls_sweep_without_error :
    detectAndRedactFacesFromPage sampleEnv3 2
        ⟨"u",
          [{ Quads := [⟨(20, 120), (80, 120), (80, 40), (20, 40)⟩]
             Author := "u", PageNumber := 1
             StrokeColor := ⟨255, 0, 0, 1⟩ }],
          [{ Quads := [⟨(20, 120), (80, 120), (80, 40), (20, 40)⟩]
             Author := "u", PageNumber := 1
             StrokeColor := ⟨255, 0, 0, 1⟩ }]⟩ = none ∧
    onRedactFacesButtonClick sampleEnv3 ⟨"u", [], []⟩ =
      ([Ev.showProgress, Ev.sendPageProcessing, Ev.pageProcessed 1,
        Ev.sendPageProcessing],
        ⟨"u",
          [{ Quads := [⟨(20, 120), (80, 120), (80, 40), (20, 40)⟩]
             Author := "u", PageNumber := 1
             StrokeColor := ⟨255, 0, 0, 1⟩ }],
          [{ Quads := [⟨(20, 120), (80, 120), (80, 40), (20, 40)⟩]
             Author := "u", PageNumber := 1
             StrokeColor := ⟨255, 0, 0, 1⟩ }]⟩,
        false) := by
  have h1 : detectAndRedactFacesFromPage sampleEnv3 1 ⟨"u", [], []⟩ =
      some ⟨"u",
        [{ Quads := [⟨(20, 120), (80, 120), (80, 40), (20, 40)⟩]
           Author := "u", PageNumber := 1
           StrokeColor := ⟨255, 0, 0, 1⟩ }],
        [{ Quads := [⟨(20, 120), (80, 120), (80, 40), (20, 40)⟩]
           Author := "u", PageNumber := 1
           StrokeColor := ⟨255, 0, 0, 1⟩ }]⟩ := by
    unfold detectAndRedactFacesFromPage detectionsForPage sampleEnv3
    norm_num [detectAllFaces, detectionOptions, resizeResults, pageZoom,
      createFaceRedactionAnnotation, quadOfBox]
  have h2 : detectAndRedactFacesFromPage sampleEnv3 2
      ⟨"u",
        [{ Quads := [⟨(20, 120), (80, 120), (80, 40), (20, 40)⟩]
           Author := "u", PageNumber := 1
           StrokeColor := ⟨255, 0, 0, 1⟩ }],
        [{ Quads := [⟨(20, 120), (80, 120), (80, 40), (20, 40)⟩]
           Author := "u", PageNumber := 1
           StrokeColor := ⟨255, 0, 0, 1⟩ }]⟩ = none := rfl
  have hs2 : sweepFrom sampleEnv3 2 2
      ⟨"u",
        [{ Quads := [⟨(20, 120), (80, 120), (80, 40), (20, 40)⟩]
           Author := "u", PageNumber := 1
           StrokeColor := ⟨255, 0, 0, 1⟩ }],
        [{ Quads := [⟨(20, 120), (80, 120), (80, 40), (20, 40)⟩]
           Author := "u", PageNumber := 1
           StrokeColor := ⟨255, 0, 0, 1⟩ }]⟩ =
      ([Ev.sendPageProcessing],
        ⟨"u",
          [{ Quads := [⟨(20, 120), (80, 120), (80, 40), (20, 40)⟩]
             Author := "u", PageNumber := 1
             StrokeColor := ⟨255, 0, 0, 1⟩ }],
          [{ Quads := [⟨(20, 120), (80, 120), (80, 40), (20, 40)⟩]
             Author := "u", PageNumber := 1
             StrokeColor := ⟨255, 0, 0, 1⟩ }]⟩, false) := by
    have e2 : sweepFrom sampleEnv3 2 2
        ⟨"u",
          [{ Quads := [⟨(20, 120), (80, 120), (80, 40), (20, 40)⟩]
             Author := "u", PageNumber := 1
             StrokeColor := ⟨255, 0, 0, 1⟩ }],
          [{ Quads := [⟨(20, 120), (80, 120), (80, 40), (20, 40)⟩]
             Author := "u", PageNumber := 1
             StrokeColor := ⟨255, 0, 0, 1⟩ }]⟩ =
        match detectAndRedactFacesFromPage sampleEnv3 2
            ⟨"u",
              [{ Quads := [⟨(20, 120), (80, 120), (80, 40), (20, 40)⟩]
                 Author := "u", PageNumber := 1
                 StrokeColor := ⟨255, 0, 0, 1⟩ }],
              [{ Quads := [⟨(20, 120), (80, 120), (80, 40), (20, 40)⟩]
                 Author := "u", PageNumber := 1
                 StrokeColor := ⟨255, 0, 0, 1⟩ }]⟩ with
        | none =>
          ([Ev.sendPageProcessing],
            ⟨"u",
              [{ Quads := [⟨(20, 120), (80, 120), (80, 40), (20, 40)⟩]
                 Author := "u", PageNumber := 1
                 StrokeColor := ⟨255, 0, 0, 1⟩ }],
              [{ Quads := [⟨(20, 120), (80, 120), (80, 40), (20, 40)⟩]
                 Author := "u", PageNumber := 1
                 StrokeColor := ⟨255, 0, 0, 1⟩ }]⟩, false)
        | some s' =>
          let rest := sweepFrom sampleEnv3 3 1 s'
          (Ev.sendPageProcessing :: Ev.pageProcessed 2 :: rest.1,
            rest.2.1, rest.2.2) := rfl
    rw [e2, h2]
  have hs1 : sweepFrom sampleEnv3 1 3 ⟨"u", [], []⟩ =
      ([Ev.sendPageProcessing, Ev.pageProcessed 1, Ev.sendPageProcessing],
        ⟨"u",
          [{ Quads := [⟨(20, 120), (80, 120), (80, 40), (20, 40)⟩]
             Author := "u", PageNumber := 1
             StrokeColor := ⟨255, 0, 0, 1⟩ }],
          [{ Quads := [⟨(20, 120), (80, 120), (80, 40), (20, 40)⟩]
             Author := "u", PageNumber := 1
             StrokeColor := ⟨255, 0, 0, 1⟩ }]⟩, false) := by
    have e1 : sweepFrom sampleEnv3 1 3 ⟨"u", [], []⟩ =
        match detectAndRedactFacesFromPage sampleEnv3 1 ⟨"u", [], []⟩ with
        | none => ([Ev.sendPageProcessing], ⟨"u", [], []⟩, false)
        | some s' =>
          let rest := sweepFrom sampleEnv3 2 2 s'
          (Ev.sendPageProcessing :: Ev.pageProcessed 1 :: rest.1,
            rest.2.1, rest.2.2) := rfl
    rw [e1, h1]
    dsimp only
    rw [hs2]
  refine ⟨h2, ?_⟩
  unfold onRedactFacesButtonClick
  rw [show sampleEnv3.pageCount = 3 from rfl, hs1]

/-- Helper: the startup invariant is preserved by every enabled step. -/
theorem startupStep_inv {st st' : StartupState} {e : StartupEv}
    (h : startupStep st e = some st') (hinv : startupInv st) :
    startupInv st' := by
  obtain ⟨h1, h2⟩ := hinv
  cases e with
  | modelLoadStart =>
    unfold startupStep at h
    by_cases hb : st.loadStarted = true
    · rw [if_pos hb] at h; exact absurd h (by simp)
    · rw [if_neg hb] at h
      injection h with h
      subst h
      exact ⟨h1, fun _ => rfl⟩
  | modelLoadComplete =>
    unfold startupStep at h
    by_cases hb : (st.loadStarted && !st.loadCompleted) = true
    · rw [if_pos hb] at h
      injection h with h
      subst h
      exact ⟨h1, h2⟩
    · rw [if_neg hb] at h; exact absurd h (by simp)
  | viewerReady =>
    unfold startupStep at h
    by_cases hb : (st.loadStarted && !st.ready) = true
    · rw [if_pos hb] at h
      injection h with h
      subst h
      have hls : st.loadStarted = true := by
        simp only [Bool.and_eq_true] at hb
        exact hb.1
      exact ⟨fun _ => rfl, fun _ => hls⟩
    · rw [if_neg hb] at h; exact absurd h (by simp)
  | click =>
    unfold startupStep at h
    by_cases hb : st.ready = true
    · rw [if_pos hb] at h
      injection h with h
      subst h
      exact ⟨fun _ => hb, h2⟩
    · rw [if_neg hb] at h; exact absurd h (by simp)
  | detect p =>
    unfold startupStep at h
    by_cases hb : st.clicked = true
    · rw [if_pos hb] at h
      injection h with h
      subst h
      exact ⟨h1, h2⟩
    · rw [if_neg hb] at h; exact absurd h (by simp)

/-- Helper: before the model load has been initiated, the only event the
script can perform is initiating the model load. -/
theorem startupStep_not_started {st st' : StartupState} {e : StartupEv}
    (hinv : startupInv st) (hns : st.loadStarted = false)
    (h : startupStep st e = some st') : e = StartupEv.modelLoadStart := by
  cases e with
  | modelLoadStart => rfl
  | modelLoadComplete => unfold startupStep at h; rw [hns] at h; simp at h
  | viewerReady => unfold startupStep at h; rw [hns] at h; simp at h
  | click =>
    unfold startupStep at h
    by_cases hr : st.ready = true
    · exact absurd (hinv.2 hr) (by simp [hns])
    · simp [hr] at h
  | detect p =>
    unfold startupStep at h
    by_cases hc : st.clicked = true
    · exact absurd (hinv.2 (hinv.1 hc)) (by simp [hns])
    · simp [hc] at h

/-- Helper: no step un-initiates the model load. -/
theorem startupStep_started {st st' : StartupState} {e : StartupEv}
    (h : startupStep st e = some st') (hs : st.loadStarted = true) :
    st'.loadStarted = true := by
  cases e with
  | modelLoadStart =>
    unfold startupStep at h
    rw [if_pos hs] at h
    exact absurd h (by simp)
  | modelLoadComplete =>
    unfold startupStep at h
    by_cases hb : (st.loadStarted && !st.loadCompleted) = true
    · rw [if_pos hb] at h; injection h with h; subst h; exact hs
    · rw [if_neg hb] at h; exact absurd h (by simp)
  | viewerReady =>
    unfold startupStep at h
    by_cases hb : (st.loadStarted && !st.ready) = true
    · rw [if_pos hb] at h; injection h with h; subst h; exact hs
    · rw [if_neg hb] at h; exact absurd h (by simp)
  | click =>
    unfold startupStep at h
    by_cases hb : st.ready = true
    · rw [if_pos hb] at h; injection h with h; subst h; exact hs
    · rw [if_neg hb] at h; exact absurd h (by simp)
  | detect p =>
    unfold startupStep at h
    by_cases hb : st.clicked = true
    · rw [if_pos hb] at h; injection h with h; subst h; exact hs
    · rw [if_neg hb] at h; exact absurd h (by simp)

/-- Helper: once the model load has been initiated, a valid continuation
never initiates it again. -/
theorem runStartup_started_no_start :
    ∀ (t : List StartupEv) (st : StartupState),
      st.loadStarted = true → (runStartup st t).isSome = true →
      t.count StartupEv.modelLoadStart = 0 := by
  intro t
  induction t with
  | nil => intro st _ _; rfl
  | cons e rest ih =>
    intro st hs hrun
    unfold runStartup at hrun
    cases hstep : startupStep st e with
    | none => rw [hstep] at hrun; simp at hrun
    | some st' =>
      rw [hstep] at hrun
      have hrest := ih st' (startupStep_started hstep hs) hrun
      cases e with
      | modelLoadStart => unfold startupStep at hstep; simp [hs] at hstep
      | modelLoadComplete => simp [List.count_cons, hrest]
      | viewerReady => simp [List.count_cons, hrest]
      | click => simp [List.count_cons, hrest]
      | detect p => simp [List.count_cons, hrest]

/-- C5 counterexample: the script discards the promise of
`faceapi.nets.ssdMobilenetv1.loadFromUri` instead of awaiting it, so there
is a valid execution in which the button is clicked and a page's detect
call runs while the model load has never completed: the claim that detect
is never invoked on a not-yet-loaded model fails. -/
theorem model_load_not_awaited_before_detect :
    validStartupTrace
      [StartupEv.modelLoadStart, StartupEv.viewerReady, StartupEv.click,
        StartupEv.detect 1] ∧
    StartupEv.detect 1 ∈
      [StartupEv.modelLoadStart, StartupEv.viewerReady, StartupEv.click,
        StartupEv.detect 1] ∧
    StartupEv.modelLoadComplete ∉
      [StartupEv.modelLoadStart, StartupEv.viewerReady, StartupEv.click,
        StartupEv.detect 1] := by
  decide

/-- C5 (amended): in every valid execution the model load is initiated as
the very first action, it is initiated at most once, and it is initiated
before any detect call — but its completion is not awaited, so detection
may run before the model has loaded. -/
theorem model_load_started_first (t : List StartupEv)
    (hvalid : validStartupTrace t) :
    (∀ e rest, t = e :: rest → e = StartupEv.modelLoadStart) ∧
    t.count StartupEv.modelLoadStart ≤ 1 ∧
    ∀ p t₁ t₂, t = t₁ ++ StartupEv.detect p :: t₂ →
      StartupEv.modelLoadStart ∈ t₁ := by
  unfold validStartupTrace at hvalid
  have hinv0 : startupInv initialStartupState := by
    constructor <;> intro hx <;> simp [initialStartupState] at hx
  have hns0 : initialStartupState.loadStarted = false := rfl
  have hhead : ∀ e rest, t = e :: rest → e = StartupEv.modelLoadStart := by
    intro e rest ht
    subst ht
    unfold runStartup at hvalid
    cases hstep : startupStep initialStartupState e with
    | none => rw [hstep] at hvalid; simp at hvalid
    | some st' => exact startupStep_not_started hinv0 hns0 hstep
  refine ⟨hhead, ?_, ?_⟩
  · cases t with
    | nil => simp
    | cons e rest =>
      have he := hhead e rest rfl
      subst he
      unfold runStartup at hvalid
      cases hstep : startupStep initialStartupState
          StartupEv.modelLoadStart with
      | none => rw [hstep] at hvalid; simp at hvalid
      | some st' =>
        rw [hstep] at hvalid
        have hst' : st'.loadStarted = true := by
          unfold startupStep initialStartupState at hstep
          simp at hstep
          subst hstep
          rfl
        have hrest := runStartup_started_no_start rest st' hst' hvalid
        simp [List.count_cons, hrest]
  · intro p t₁ t₂ ht
    cases t₁ with
    | nil =>
      exact absurd (hhead (StartupEv.detect p) t₂ ht) (by simp)
    | cons e₁ t₁' =>
      have he₁ := hhead e₁ (t₁' ++ StartupEv.detect p :: t₂) (by simpa using ht)
      subst he₁
      simp

/-- Witness for C5's amended statement on a concrete valid trace. -/
theorem model_load_started_first_witness :
    validStartupTrace
      [StartupEv.modelLoadStart, StartupEv.modelLoadComplete,
        StartupEv.viewerReady, StartupEv.click, StartupEv.detect 1] ∧
    ((∀ e rest,
        [StartupEv.modelLoadStart, StartupEv.modelLoadComplete,
          StartupEv.viewerReady, StartupEv.click, StartupEv.detect 1] =
          e :: rest → e = StartupEv.modelLoadStart) ∧
     ([StartupEv.modelLoadStart, StartupEv.modelLoadComplete,
        StartupEv.viewerReady, StartupEv.click,
        StartupEv.detect 1].count StartupEv.modelLoadStart ≤ 1) ∧
     ∀ p t₁ t₂,
       [StartupEv.modelLoadStart, StartupEv.modelLoadComplete,
         StartupEv.viewerReady, StartupEv.click, StartupEv.detect 1] =
         t₁ ++ StartupEv.detect p :: t₂ →
       StartupEv.modelLoadStart ∈ t₁) :=
  ⟨by decide,
    model_load_started_first
      [StartupEv.modelLoadStart, StartupEv.modelLoadComplete,
        StartupEv.viewerReady, StartupEv.click, StartupEv.detect 1]
      (by decide)⟩

end FacialRedaction
